import Mathlib

/-!
Shallow embedding of the My_RAG pipeline (chunker.py, retriever.py,
generator.py, main.py) and proofs about it.

Modelling conventions:
* Python strings are Lean `String`s, but the Python primitives `strip`,
  `lower`, slicing and `len` are re-implemented over the underlying character
  list (`py_strip`, `py_lower`, `py_take`, `String.length`) so that every
  definition evaluates inside the kernel; Python `len` counts code points,
  as `String.length` does.
* External collaborators (the jieba segmenter, the two stopword files, the
  langchain splitting procedure, the Ollama chat client, the YAML
  configuration loader) are abstract parameters; the control flow around them
  is translated from the source.
* Fallible operations return `Except`/`Option`; observable effects of the
  generation phase (collaborator calls, backoff sleeps) are counted in the
  returned record so the retry policy is checkable.
-/

/-- Python `str.strip()` with no argument: drop leading and trailing
whitespace, written over the character list so it computes in the kernel. -/
def py_strip (s : String) : String :=
  String.mk (((s.data.dropWhile Char.isWhitespace).reverse.dropWhile
    Char.isWhitespace).reverse)

/-- Python `str.lower()` over the character list; the inputs exercised here
are ASCII letters plus CJK ideographs, on which `Char.toLower` agrees with
Python. -/
def py_lower (s : String) : String :=
  String.mk (s.data.map Char.toLower)

/-- Python slice `s[:n]` over the character list. -/
def py_take (s : String) (n : Nat) : String :=
  String.mk (s.data.take n)

/-- The CJK test `u4e00 <= c <= u9fff` used by both `detect_language`
(generator.py) and `preprocess_text` (retriever.py). -/
def isCJK (c : Char) : Bool :=
  0x4e00 ≤ c.toNat && c.toNat ≤ 0x9fff

/-- A JSON-like field value; only whether it is a string matters to the code
(the `isinstance(doc[ .. ], str)` test in `chunk_documents`). -/
inductive JVal where
  | str (s : String)
  | nonstr
deriving DecidableEq

/-- A raw input document: an optional `content` field (possibly non-string),
an optional `language` tag, and the remaining metadata fields. -/
structure Document where
  content : Option JVal
  language : Option String
  meta : List (String × String)
deriving DecidableEq

/-- Metadata attached to a chunk by `chunk_documents`: a copy of the document
fields minus `content`, plus the running `chunk_index`. -/
structure ChunkMeta where
  language : Option String
  meta : List (String × String)
  chunk_index : Nat
deriving DecidableEq

/-- A chunk record, as produced by chunker.py and consumed by generator.py. -/
structure Chunk where
  page_content : String
  metadata : ChunkMeta
deriving DecidableEq

/-- Modelled from the spec: the constructor validation of the text splitter
(langchain `RecursiveCharacterTextSplitter`, library code that is not under
src/), which per the spec must reject a non-positive `chunk_size` or
`chunk_overlap >= chunk_size` with a configuration error.  The recursive
splitting procedure itself stays abstract as the parameter `f`. -/
def RecursiveCharacterTextSplitter (chunk_size chunk_overlap : Int)
    (f : String → List String) : Except String (String → List String) :=
  if chunk_size ≤ 0 ∨ chunk_overlap ≥ chunk_size then
    Except.error "ConfigurationError: bad chunk_size/chunk_overlap"
  else
    Except.ok f

/-- Whether a document has a string `content` field (the
`isinstance` test in chunker.py). -/
def has_text_field (d : Document) : Bool :=
  match d.content with
  | some (JVal.str _) => true
  | _ => false

/-- The loop body of `chunk_documents` for one document: documents missing
`content` (or whose `content` is not a string) or missing `language` are
skipped; the splitter is selected by the document tag (`zh` vs other); only a
document whose tag equals the target language is chunked, each chunk wrapped
with the copied metadata and its `chunk_index`. -/
def chunk_one (splitter_en splitter_zh : String → List String)
    (language : String) (doc : Document) : List Chunk :=
  match doc.content, doc.language with
  | some (JVal.str text), some lang =>
    let splitter := if lang = "zh" then splitter_zh else splitter_en
    if lang = language then
      ((splitter text).enum).map (fun p =>
        { page_content := p.2
          metadata :=
            { language := some lang, meta := doc.meta, chunk_index := p.1 } })
    else []
  | _, _ => []

/-- `chunk_documents(docs, language, chunk_size, chunk_overlap)` from
chunker.py: both splitters are constructed (and their configuration
validated) before the document loop runs; the English and Chinese splitting
functions are the abstract parameters `fEn`, `fZh`. -/
def chunk_documents (fEn fZh : String → List String) (docs : List Document)
    (language : String) (chunk_size chunk_overlap : Int) :
    Except String (List Chunk) := do
  let splitter_en ← RecursiveCharacterTextSplitter chunk_size chunk_overlap fEn
  let splitter_zh ← RecursiveCharacterTextSplitter chunk_size chunk_overlap fZh
  Except.ok (docs.flatMap (chunk_one splitter_en splitter_zh language))

/-- `detect_language` from generator.py: count CJK characters and
non-whitespace characters; the float comparison
`chinese_chars / max(total_chars, 1) > 0.3` is modelled exactly as the
integer comparison `10 * chinese_chars > 3 * max(total_chars, 1)` (the two
can only differ within one ulp of 0.3, unreachable at these magnitudes). -/
def detect_language (text : String) : String :=
  let chinese_chars := (text.data.filter isCJK).length
  let total_chars := (text.data.filter (fun c => !c.isWhitespace)).length
  if 10 * chinese_chars > 3 * max total_chars 1 then "zh" else "en"

/-- The loop of `deduplicate_context` from generator.py: `seen` holds the
stripped contents already kept; a chunk is kept when its stripped content is
non-empty and unseen. -/
def dedup_go (seen : List String) : List Chunk → List Chunk
  | [] => []
  | chunk :: rest =>
    let content := py_strip chunk.page_content
    if content ≠ "" ∧ content ∉ seen then
      chunk :: dedup_go (content :: seen) rest
    else
      dedup_go seen rest

/-- `deduplicate_context(chunks)` from generator.py. -/
def deduplicate_context (chunks : List Chunk) : List Chunk :=
  dedup_go [] chunks

/-- Total character length of a sequence of passages. -/
def total_len (parts : List String) : Nat :=
  (parts.map String.length).sum

/-- The accumulation loop of `optimize_context` from generator.py: passages
are taken in order while they fit; the passage that would overflow the budget
is replaced by a truncated prefix plus the three-character indicator, but
only when more than 100 units of budget remain, and the loop then stops.
The Python test `max_length is not None and total + len > max_length` is
rendered as the outer match on `max_length`. -/
def optimize_go (max_length : Option Nat) :
    List Chunk → Nat → List String
  | [], _ => []
  | chunk :: rest, total_length =>
    let content := chunk.page_content
    match max_length with
    | some m =>
      if total_length + content.length > m then
        let remaining := m - total_length
        if remaining > 100 then [py_take content remaining ++ "..."] else []
      else
        content :: optimize_go (some m) rest (total_length + content.length)
    | none =>
      content :: optimize_go none rest (total_length + content.length)

/-- `optimize_context(chunks, max_length)` from generator.py: deduplicate,
then limit the total length. -/
def optimize_context (chunks : List Chunk) (max_length : Option Nat) :
    List String :=
  optimize_go max_length (deduplicate_context chunks) 0

/-- The data interpolated by `create_messages` from generator.py: the prompt
templates are fixed text, so only the language branch, the joined context and
the query are modelled; no claim inspects the prompt wording. -/
structure Messages where
  language : String
  context : String
  query : String
deriving DecidableEq

/-- `create_messages(query, context_parts, language)` from generator.py,
reduced to the data the prompt interpolates. -/
def create_messages (query : String) (context_parts : List String)
    (language : String) : Messages :=
  { language := language
    context := String.intercalate "\n\n" context_parts
    query := query }

/-- Observable outcome of `generate_answer`: the returned string plus the
number of collaborator calls and of `time.sleep(1)` backoffs. -/
structure GenOut where
  answer : String
  calls : Nat
  sleeps : Nat
deriving DecidableEq

/-- One `try` body of the retry loop in `generate_answer`: call the chat
collaborator (abstracted as `chat`, indexed by the attempt number), strip the
response, and treat an empty stripped response as the raised
`ValueError("Empty response from Ollama")`. -/
def gen_attempt (chat : Nat → Except String String) (attempt : Nat) :
    Except String String :=
  match chat attempt with
  | Except.error e => Except.error e
  | Except.ok response =>
    let answer := py_strip response
    if answer = "" then Except.error "Empty response from Ollama"
    else Except.ok answer

/-- The failure string returned when every retry is exhausted; Python renders
a never-assigned `last_error` as `None`. -/
def fail_message (max_retries : Nat) (last_error : Option String) : String :=
  "Error: Failed to generate answer after " ++ toString max_retries ++
    " attempts - " ++ last_error.getD "None"

/-- The `for attempt in range(max_retries)` retry loop of `generate_answer`,
recursing on the list of remaining attempt indices.  `time.sleep(1)` runs
only when the attempt failed and another attempt remains
(`attempt < max_retries - 1`), which on the remaining-attempts list is
`rest` being non-empty. -/
def retry_go (chat : Nat → Except String String) (max_retries : Nat)
    (last_error : Option String) : List Nat → GenOut
  | [] =>
    { answer := fail_message max_retries last_error, calls := 0, sleeps := 0 }
  | attempt :: rest =>
    match gen_attempt chat attempt with
    | Except.ok answer => { answer := answer, calls := 1, sleeps := 0 }
    | Except.error e =>
      let r := retry_go chat max_retries (some e) rest
      { answer := r.answer
        calls := r.calls + 1
        sleeps := r.sleeps + (if rest = [] then 0 else 1) }

/-- `generate_answer(query, context_chunks, max_retries)` from generator.py.
The configuration collaborator (`load_ollama_config`) is the parameter
`config` and the generation collaborator (`client.chat` on the fixed
`messages`) is the parameter `chat`, indexed by the attempt number.  The
Python guard `not query or not query.strip()` is the first test. -/
def generate_answer (chat : Messages → Nat → Except String String)
    (config : Except String Unit) (query : String)
    (context_chunks : List Chunk) (max_retries : Nat) : GenOut :=
  if query = "" ∨ py_strip query = "" then
    { answer := "Error: Empty query provided.", calls := 0, sleeps := 0 }
  else if context_chunks = [] then
    { answer := "Unable to answer.", calls := 0, sleeps := 0 }
  else
    let language := detect_language query
    let context_parts := optimize_context context_chunks none
    if context_parts = [] then
      { answer := "Unable to answer.", calls := 0, sleeps := 0 }
    else
      let messages := create_messages query context_parts language
      match config with
      | Except.error e =>
        { answer := "Error: Failed to load configuration - " ++ e
          calls := 0, sleeps := 0 }
      | Except.ok _ =>
        retry_go (chat messages) max_retries none (List.range max_retries)

/-- Python regex word characters, restricted to the character classes this
development exercises: ASCII alphanumerics, underscore, and CJK ideographs
(all of which the Unicode-aware `\w` of `re.findall` matches). -/
def isWordChar (c : Char) : Bool :=
  c.isAlphanum || c = '_' || isCJK c

/-- The token scan of `re.findall` over word characters: maximal runs of word
characters, carried in `acc` in reverse while a run is open. -/
def word_tokens_go (acc : List Char) : List Char → List String
  | [] => if acc = [] then [] else [String.mk acc.reverse]
  | c :: cs =>
    if isWordChar c then word_tokens_go (c :: acc) cs
    else if acc = [] then word_tokens_go [] cs
    else String.mk acc.reverse :: word_tokens_go [] cs

/-- All maximal word-character runs of a string, in order. -/
def word_tokens (s : String) : List String :=
  word_tokens_go [] s.data

/-- `preprocess_text(text)` from retriever.py.  The dictionary segmenter
(`jieba.cut`) and the two stopword files (absent from src/) are abstract
parameters.  The function takes no language tag: the branch is chosen by
whether any character of the text lies in the CJK range. -/
def preprocess_text (jieba : String → List String)
    (stopwords_zh stopwords_en : List String) (text : String) :
    List String :=
  let is_chinese := text.data.any isCJK
  let tokens :=
    if is_chinese then jieba text else word_tokens (py_lower text)
  let stopwords := if is_chinese then stopwords_zh else stopwords_en
  tokens.filter (fun token =>
    decide (token ∉ stopwords ∧ py_strip token ≠ ""))

/-- Modelled from the spec: the Tokenizer contract
`tokenize(text, language)` of spec section 4.1 — the Chinese-family tag gets
dictionary segmentation, every other tag gets lowercasing plus splitting on
non-alphanumeric boundaries, then stopword and empty-token filtering.  Used
only to compare the spec contract with `preprocess_text`. -/
def spec_tokenize (jieba : String → List String)
    (stopwords_zh stopwords_en : List String) (text : String)
    (language : String) : List String :=
  if language = "zh" then
    (jieba text).filter (fun token =>
      decide (token ∉ stopwords_zh ∧ py_strip token ≠ ""))
  else
    (word_tokens (py_lower text)).filter (fun token =>
      decide (token ∉ stopwords_en ∧ py_strip token ≠ ""))

/-- Modelled from the spec: deduplication by exact trimmed-text equality that
keeps the first occurrence of each distinct trimmed text (spec section 4.6),
with no dropping of whitespace-only passages.  Used only to compare the spec
contract with `deduplicate_context`. -/
def spec_dedup_go (seen : List String) : List Chunk → List Chunk
  | [] => []
  | chunk :: rest =>
    let content := py_strip chunk.page_content
    if content ∈ seen then spec_dedup_go seen rest
    else chunk :: spec_dedup_go (content :: seen) rest

/-- Modelled from the spec: see `spec_dedup_go`. -/
def spec_dedup (chunks : List Chunk) : List Chunk :=
  spec_dedup_go [] chunks

/-- Modelled from the spec: the language-appropriate unable-to-answer
response of spec section 4.7, in the detected language of the query; the
repository prompt fixes the Chinese refusal wording as 无法回答. -/
def spec_refusal (language : String) : String :=
  if language = "zh" then "无法回答" else "Unable to answer"

/-- One iteration of the query loop in `main` (main.py): retrieve, generate,
then write `prediction.content` and the `prediction.references` singleton
taken from element 0 of the retrieved chunks; that indexing raises
`IndexError` on an empty retrieval result, modelled as `none`. -/
def main_step (chat : Messages → Nat → Except String String)
    (config : Except String Unit) (retrieve : String → List Chunk)
    (query_text : String) : Option (String × List String) :=
  let retrieved_chunks := retrieve query_text
  let answer :=
    (generate_answer chat config query_text retrieved_chunks 3).answer
  match retrieved_chunks with
  | [] => none
  | c :: _ => some (answer, [c.page_content])

/-! ### Helper lemmas -/

theorem py_take_length (s : String) (n : Nat) :
    (py_take s n).length = min n s.length := by
  show (s.data.take n).length = min n s.data.length
  exact List.length_take n s.data

theorem string_length_append (a b : String) :
    (a ++ b).length = a.length + b.length := by
  cases a with
  | mk da =>
    cases b with
    | mk db =>
      show (da ++ db).length = da.length + db.length
      exact List.length_append da db

theorem total_len_nil : total_len [] = 0 := rfl

theorem total_len_cons (s : String) (l : List String) :
    total_len (s :: l) = s.length + total_len l := by
  simp [total_len]

theorem optimize_go_budget (cs : List Chunk) :
    ∀ t m : Nat, t ≤ m →
      t + total_len (optimize_go (some m) cs t) ≤ m + 3 := by
  induction cs with
  | nil =>
    intro t m ht
    have h0 : optimize_go (some m) [] t = [] := rfl
    rw [h0, total_len_nil]
    omega
  | cons c rest ih =>
    intro t m ht
    simp only [optimize_go]
    by_cases h : t + c.page_content.length > m
    · rw [if_pos h]
      by_cases hr : m - t > 100
      · rw [if_pos hr]
        simp only [total_len_cons, total_len_nil, string_length_append,
          py_take_length]
        have hlen : ("..." : String).length = 3 := rfl
        rw [hlen]
        omega
      · rw [if_neg hr]
        simp only [total_len_nil]
        omega
    · rw [if_neg h]
      have hrec := ih (t + c.page_content.length) m (by omega)
      simp only [total_len_cons]
      omega

theorem chunk_documents_bad (fEn fZh : String → List String)
    (docs : List Document) (language : String) (chunk_size chunk_overlap : Int)
    (h : chunk_size ≤ 0 ∨ chunk_overlap ≥ chunk_size) :
    chunk_documents fEn fZh docs language chunk_size chunk_overlap =
      Except.error "ConfigurationError: bad chunk_size/chunk_overlap" := by
  unfold chunk_documents RecursiveCharacterTextSplitter
  rw [if_pos h]
  rfl

theorem chunk_documents_ok (fEn fZh : String → List String)
    (docs : List Document) (language : String) (chunk_size chunk_overlap : Int)
    (h : ¬ (chunk_size ≤ 0 ∨ chunk_overlap ≥ chunk_size)) :
    chunk_documents fEn fZh docs language chunk_size chunk_overlap =
      Except.ok (docs.flatMap (chunk_one fEn fZh language)) := by
  unfold chunk_documents RecursiveCharacterTextSplitter
  rw [if_neg h, if_neg h]
  rfl

/-! ### Claim theorems -/

set_option maxRecDepth 20000 in
/-- C1, counterexample: the claim that `optimize_context` keeps the total
character length within a set budget `max_total_length` fails in the
truncation case.  With budget 120 and one deduplicated 130-character passage,
the returned context is the 120-character prefix plus the three-character
indicator, total length 123 > 120. -/
theorem C1_counterexample :
    ¬ total_len (optimize_context
        [{ page_content := String.mk (List.replicate 130 'a'),
           metadata := { language := none, meta := [], chunk_index := 0 } }]
        (some 120)) ≤ 120 := by decide

/-- C1, amended: for every chunk list and every set character budget `m`,
the context returned by `optimize_context` has total character length at most
`m + 3`; the possible excess of exactly the 3-character truncation indicator
appears when the overflowing passage is replaced by a truncated prefix. -/
theorem C1_amended_budget_bound (chunks : List Chunk) (m : Nat) :
    total_len (optimize_context chunks (some m)) ≤ m + 3 := by
  have h := optimize_go_budget (deduplicate_context chunks) 0 m (Nat.zero_le m)
  have h2 : optimize_context chunks (some m) =
      optimize_go (some m) (deduplicate_context chunks) 0 := rfl
  rw [h2]
  omega

/-- C2: for every document list and language, `chunk_documents` with a
non-positive `chunk_size` or with `chunk_overlap >= chunk_size` yields a
configuration error instead of a chunk list (the splitter constructor,
modelled from the spec, validates before any document is chunked). -/
theorem C2_config_error (fEn fZh : String → List String)
    (docs : List Document) (language : String) (chunk_size chunk_overlap : Int)
    (h : chunk_size ≤ 0 ∨ chunk_overlap ≥ chunk_size) :
    chunk_documents fEn fZh docs language chunk_size chunk_overlap =
      Except.error "ConfigurationError: bad chunk_size/chunk_overlap" :=
  chunk_documents_bad fEn fZh docs language chunk_size chunk_overlap h

/-- C2, witness at chunk_size = 0 (non-positive, and equal to the overlap). -/
theorem C2_config_error_witness :
    ((0:Int) ≤ 0 ∨ (0:Int) ≥ 0) ∧
    chunk_documents (fun s => [s]) (fun s => [s]) [] "en" 0 0 =
      Except.error "ConfigurationError: bad chunk_size/chunk_overlap" :=
  ⟨Or.inl (by decide),
   C2_config_error (fun s => [s]) (fun s => [s]) [] "en" 0 0
     (Or.inl (by decide))⟩

/-- C9: for every query that is empty or whitespace-only (the Python guard
`not query or not query.strip()`), `generate_answer` returns the fixed error
text with zero collaborator calls, for every context chunk list, generation
collaborator and configuration. -/
theorem C9_empty_query (chat : Messages → Nat → Except String String)
    (config : Except String Unit) (chunks : List Chunk) (max_retries : Nat)
    (query : String) (h : py_strip query = "") :
    generate_answer chat config query chunks max_retries =
      { answer := "Error: Empty query provided.", calls := 0, sleeps := 0 } := by
  simp [generate_answer, h]

/-- C9, witness at the whitespace-only query. -/
theorem C9_empty_query_witness :
    py_strip "  " = "" ∧
    generate_answer (fun _ _ => Except.error "down") (Except.ok ()) "  "
        [{ page_content := "x",
           metadata := { language := none, meta := [], chunk_index := 0 } }] 3 =
      { answer := "Error: Empty query provided.", calls := 0, sleeps := 0 } :=
  ⟨by decide, C9_empty_query _ _ _ 3 "  " (by decide)⟩

/-- C5, counterexample: `preprocess_text` does not select its segmentation
path by a language tag.  On the text 中ABC with tag en, the spec contract
requires the lowercase-and-split result, but the code takes the dictionary
path because the text contains a CJK character, and returns the tokens of
the (uncalled) lowercasing pipeline unchanged in case: with an identity
segmenter and empty stopword sets, the outputs differ. -/
theorem C5_counterexample :
    preprocess_text (fun s => [s]) [] [] "中ABC" ≠
      spec_tokenize (fun s => [s]) [] [] "中ABC" "en" := by decide

/-- C5, amended: `preprocess_text` takes no language tag; it behaves as the
spec tokenizer called with a content-derived tag, namely zh exactly when the
text contains at least one CJK character and en otherwise, so every text
without CJK characters (whatever its actual language) takes the
lowercase-and-split path without erroring. -/
theorem C5_amended_dispatch (jieba : String → List String)
    (stopwords_zh stopwords_en : List String) (text : String) :
    preprocess_text jieba stopwords_zh stopwords_en text =
      spec_tokenize jieba stopwords_zh stopwords_en text
        (if text.data.any isCJK then "zh" else "en") := by
  by_cases h : text.data.any isCJK
  · simp [preprocess_text, spec_tokenize, h]
  · simp only [preprocess_text, spec_tokenize, h, Bool.false_eq_true,
      if_false, if_neg (by decide : ¬ ("en" : String) = "zh")]

/-- C7, counterexample: the claim that the assembler deduplication keeps the
first occurrence of each distinct trimmed passage text fails on a
whitespace-only passage: its trimmed text (the empty string) is distinct,
yet `deduplicate_context` drops it, while the dedup step modelled from the
spec keeps it. -/
theorem C7_counterexample :
    deduplicate_context
        [{ page_content := " ",
           metadata := { language := none, meta := [], chunk_index := 0 } }] = []
    ∧ spec_dedup
        [{ page_content := " ",
           metadata := { language := none, meta := [], chunk_index := 0 } }] =
      [{ page_content := " ",
         metadata := { language := none, meta := [], chunk_index := 0 } }]
    ∧ deduplicate_context
        [{ page_content := " ",
           metadata := { language := none, meta := [], chunk_index := 0 } }] ≠
      spec_dedup
        [{ page_content := " ",
           metadata := { language := none, meta := [], chunk_index := 0 } }] := by
  decide

theorem dedup_go_eq_spec (chunks : List Chunk) :
    ∀ seen, dedup_go seen chunks =
      spec_dedup_go seen
        (chunks.filter (fun c => decide (py_strip c.page_content ≠ ""))) := by
  induction chunks with
  | nil => intro seen; rfl
  | cons c rest ih =>
    intro seen
    by_cases h0 : py_strip c.page_content = ""
    · simp [dedup_go, spec_dedup_go, List.filter_cons, h0, ih]
    · by_cases h1 : py_strip c.page_content ∈ seen
      · simp [dedup_go, spec_dedup_go, List.filter_cons, h0, h1, ih]
      · simp [dedup_go, spec_dedup_go, List.filter_cons, h0, h1, ih]

/-- C7, amended: `deduplicate_context` deduplicates by exact equality of
stripped passage text keeping the first (hence highest-fused-score)
occurrence of each distinct stripped text, after discarding every chunk whose
stripped text is empty; the empty input yields the empty sequence. -/
theorem C7_amended_dedup (chunks : List Chunk) :
    deduplicate_context chunks =
      spec_dedup (chunks.filter (fun c => decide (py_strip c.page_content ≠ "")))
    ∧ deduplicate_context ([] : List Chunk) = [] :=
  ⟨dedup_go_eq_spec chunks [], rfl⟩

/-- C3, counterexample: on the Chinese query 你好 with an empty chunk list,
`generate_answer` returns the fixed English text, not the refusal in the
detected language (zh) that the claim requires: the refusal is not
language-appropriate. -/
theorem C3_counterexample :
    (generate_answer (fun _ _ => Except.error "down") (Except.ok ())
        "你好" [] 3).answer = "Unable to answer."
    ∧ detect_language "你好" = "zh"
    ∧ (generate_answer (fun _ _ => Except.error "down") (Except.ok ())
        "你好" [] 3).answer ≠ spec_refusal (detect_language "你好") := by
  decide

/-- C3, amended: for every non-empty query whose assembled context is empty
(either no chunks or every chunk deduplicates away), `generate_answer`
returns the fixed refusal text Unable to answer. (in English, regardless of
the detected language of the query) and makes zero calls to the generation
collaborator. -/
theorem C3_amended_refusal (chat : Messages → Nat → Except String String)
    (config : Except String Unit) (query : String) (chunks : List Chunk)
    (max_retries : Nat) (hq : ¬ (query = "" ∨ py_strip query = ""))
    (hc : optimize_context chunks none = []) :
    generate_answer chat config query chunks max_retries =
      { answer := "Unable to answer.", calls := 0, sleeps := 0 } := by
  by_cases hl : chunks = []
  · simp [generate_answer, hq, hl]
  · simp [generate_answer, hq, hl, hc]

/-- C3, witness: non-empty query with an empty chunk list. -/
theorem C3_amended_refusal_witness :
    ¬ (("hi" : String) = "" ∨ py_strip "hi" = "") ∧
    optimize_context ([] : List Chunk) none = [] ∧
    generate_answer (fun _ _ => Except.error "down") (Except.ok ()) "hi" [] 3 =
      { answer := "Unable to answer.", calls := 0, sleeps := 0 } :=
  ⟨by decide, by decide,
   C3_amended_refusal _ _ "hi" [] 3 (by decide) (by decide)⟩

theorem chunk_one_nil_of_lang_ne (fEn fZh : String → List String)
    (language : String) (d : Document) (h : d.language ≠ some language) :
    chunk_one fEn fZh language d = [] := by
  obtain ⟨content, dlang, dmeta⟩ := d
  cases content with
  | none => rfl
  | some v =>
    cases v with
    | nonstr => rfl
    | str s =>
      cases dlang with
      | none => rfl
      | some l =>
        have hne : l ≠ language := by
          intro he
          exact h (by simp [he])
        simp [chunk_one, hne]

theorem chunk_one_nil_of_missing (fEn fZh : String → List String)
    (language : String) (d : Document)
    (h : has_text_field d = false ∨ d.language = none) :
    chunk_one fEn fZh language d = [] := by
  obtain ⟨content, dlang, dmeta⟩ := d
  cases content with
  | none => rfl
  | some v =>
    cases v with
    | nonstr => rfl
    | str s =>
      cases dlang with
      | none => rfl
      | some l =>
        rcases h with h | h
        · exact absurd h (by simp [has_text_field])
        · exact absurd h (by simp)

theorem flatMap_filter_of_nil {α β : Type} (l : List α) (p : α → Bool)
    (f : α → List β) (h : ∀ a ∈ l, p a = false → f a = []) :
    l.flatMap f = (l.filter p).flatMap f := by
  induction l with
  | nil => rfl
  | cons a rest ih =>
    have ihr := ih (fun x hx => h x (List.mem_cons_of_mem _ hx))
    by_cases hp : p a = true
    · simp [List.filter_cons, hp, ihr]
    · have hfa : f a = [] :=
        h a (List.mem_cons_self _ _) (by simpa using hp)
      simp [List.filter_cons, hp, hfa, ihr]

/-- C6: for every document list and target language, `chunk_documents`
produces chunks only from documents whose language tag equals the target
language (filtering those out changes nothing), silently skips every
document missing its text field or its language tag (filtering those out
changes nothing), and with a valid configuration it returns a chunk list
rather than raising. -/
theorem C6_language_filter (fEn fZh : String → List String)
    (docs : List Document) (language : String)
    (chunk_size chunk_overlap : Int) :
    chunk_documents fEn fZh docs language chunk_size chunk_overlap =
      chunk_documents fEn fZh
        (docs.filter (fun d => decide (d.language = some language)))
        language chunk_size chunk_overlap
    ∧ chunk_documents fEn fZh docs language chunk_size chunk_overlap =
      chunk_documents fEn fZh
        (docs.filter (fun d => has_text_field d && d.language.isSome))
        language chunk_size chunk_overlap
    ∧ (0 < chunk_size → chunk_overlap < chunk_size →
        ∃ cs, chunk_documents fEn fZh docs language chunk_size chunk_overlap =
          Except.ok cs) := by
  by_cases h : chunk_size ≤ 0 ∨ chunk_overlap ≥ chunk_size
  · refine ⟨?_, ?_, ?_⟩
    · rw [chunk_documents_bad fEn fZh docs language chunk_size chunk_overlap h,
        chunk_documents_bad fEn fZh _ language chunk_size chunk_overlap h]
    · rw [chunk_documents_bad fEn fZh docs language chunk_size chunk_overlap h,
        chunk_documents_bad fEn fZh _ language chunk_size chunk_overlap h]
    · intro h1 h2
      exact absurd h (by omega)
  · refine ⟨?_, ?_, ?_⟩
    · rw [chunk_documents_ok fEn fZh docs language chunk_size chunk_overlap h,
        chunk_documents_ok fEn fZh _ language chunk_size chunk_overlap h]
      congr 1
      apply flatMap_filter_of_nil
      intro d _ hd
      apply chunk_one_nil_of_lang_ne
      intro he
      simp [he] at hd
    · rw [chunk_documents_ok fEn fZh docs language chunk_size chunk_overlap h,
        chunk_documents_ok fEn fZh _ language chunk_size chunk_overlap h]
      congr 1
      apply flatMap_filter_of_nil
      intro d _ hd
      apply chunk_one_nil_of_missing
      rcases Bool.and_eq_false_iff.mp hd with h' | h'
      · exact Or.inl h'
      · exact Or.inr (Option.not_isSome_iff_eq_none.mp (by simp [h']))
    · intro _ _
      exact ⟨_, chunk_documents_ok fEn fZh docs language chunk_size
        chunk_overlap h⟩

/-- C6, witness: a matching document plus a document missing both fields, at
a valid configuration. -/
theorem C6_language_filter_witness :
    ((0:Int) < 1000) ∧ ((200:Int) < 1000) ∧
    (∃ cs, chunk_documents (fun s => [s]) (fun s => [s])
        [{ content := some (JVal.str "hello"), language := some "en", meta := [] },
         { content := none, language := none, meta := [] }] "en" 1000 200 =
      Except.ok cs) ∧
    chunk_documents (fun s => [s]) (fun s => [s])
        [{ content := some (JVal.str "hello"), language := some "en", meta := [] },
         { content := none, language := none, meta := [] }] "en" 1000 200 =
      chunk_documents (fun s => [s]) (fun s => [s])
        ([{ content := some (JVal.str "hello"), language := some "en", meta := [] },
          { content := none, language := none, meta := [] }].filter
          (fun d => decide (d.language = some "en"))) "en" 1000 200 :=
  ⟨by decide, by decide,
   (C6_language_filter (fun s => [s]) (fun s => [s]) _ "en" 1000 200).2.2
     (by decide) (by decide),
   (C6_language_filter (fun s => [s]) (fun s => [s]) _ "en" 1000 200).1⟩

theorem dedup_go_id (chunks : List Chunk) :
    ∀ seen,
      chunks.Pairwise
        (fun a b => py_strip a.page_content ≠ py_strip b.page_content) →
      (∀ c ∈ chunks, py_strip c.page_content ≠ "") →
      (∀ c ∈ chunks, py_strip c.page_content ∉ seen) →
      dedup_go seen chunks = chunks := by
  induction chunks with
  | nil => intro seen _ _ _; rfl
  | cons c rest ih =>
    intro seen hp hne hns
    have hcond : py_strip c.page_content ≠ "" ∧
        py_strip c.page_content ∉ seen :=
      ⟨hne c (List.mem_cons_self _ _), hns c (List.mem_cons_self _ _)⟩
    rw [dedup_go, if_pos hcond]
    congr 1
    apply ih (py_strip c.page_content :: seen)
    · exact (List.pairwise_cons.mp hp).2
    · intro c' hc'
      exact hne c' (List.mem_cons_of_mem _ hc')
    · intro c' hc'
      rw [List.mem_cons]
      push_neg
      refine ⟨?_, hns c' (List.mem_cons_of_mem _ hc')⟩
      exact fun he => (List.pairwise_cons.mp hp).1 c' hc' he.symm

theorem optimize_go_none (chunks : List Chunk) :
    ∀ t, optimize_go none chunks t =
      chunks.map (fun c => c.page_content) := by
  induction chunks with
  | nil => intro t; rfl
  | cons c rest ih =>
    intro t
    rw [optimize_go]
    rw [List.map_cons]
    congr 1
    exact ih _

theorem optimize_go_within (chunks : List Chunk) :
    ∀ t m : Nat,
      t + total_len (chunks.map (fun c => c.page_content)) ≤ m →
      optimize_go (some m) chunks t =
        chunks.map (fun c => c.page_content) := by
  induction chunks with
  | nil => intro t m _; rfl
  | cons c rest ih =>
    intro t m h
    rw [List.map_cons, total_len_cons] at h
    have hfit : ¬ (t + c.page_content.length > m) := by omega
    rw [optimize_go]
    rw [if_neg hfit, List.map_cons]
    congr 1
    exact ih (t + c.page_content.length) m (by omega)

/-- C8: the context assembler is idempotent on its own output: for every
chunk list with pairwise distinct non-empty stripped texts and total
character length within the budget (when one is set), `optimize_context`
returns exactly the sequence of its passages unchanged. -/
theorem C8_idempotent (chunks : List Chunk) (max_length : Option Nat)
    (hdistinct : chunks.Pairwise
      (fun a b => py_strip a.page_content ≠ py_strip b.page_content))
    (hnonempty : ∀ c ∈ chunks, py_strip c.page_content ≠ "")
    (hbudget : ∀ m, max_length = some m →
      total_len (chunks.map (fun c => c.page_content)) ≤ m) :
    optimize_context chunks max_length =
      chunks.map (fun c => c.page_content) := by
  have hd : deduplicate_context chunks = chunks :=
    dedup_go_id chunks [] hdistinct hnonempty (by simp)
  unfold optimize_context
  rw [hd]
  cases max_length with
  | none => exact optimize_go_none chunks 0
  | some m =>
    exact optimize_go_within chunks 0 m
      (by simpa using hbudget m rfl)

/-- C8, witness: two distinct passages of total length 4 within budget 10. -/
theorem C8_idempotent_witness :
    ([{ page_content := "ab",
        metadata := { language := none, meta := [], chunk_index := 0 } },
      { page_content := "cd",
        metadata := { language := none, meta := [], chunk_index := 1 } }] :
        List Chunk).Pairwise
      (fun a b => py_strip a.page_content ≠ py_strip b.page_content) ∧
    optimize_context
      [{ page_content := "ab",
         metadata := { language := none, meta := [], chunk_index := 0 } },
       { page_content := "cd",
         metadata := { language := none, meta := [], chunk_index := 1 } }]
      (some 10) = ["ab", "cd"] :=
  ⟨by decide,
   C8_idempotent _ (some 10) (by decide) (by decide)
     (by
       intro m hm
       injection hm with hm
       subst hm
       decide)⟩

/-- C10: in the main query loop, writing the output record requires at least
one retrieved chunk: when retrieval returns a non-empty list the references
field is the singleton holding the first retrieved chunk text, and when
retrieval returns zero chunks the indexing of element 0 fails (no record is
produced) instead of producing a refusal record. -/
theorem C10_references_indexing (chat : Messages → Nat → Except String String)
    (config : Except String Unit) (retrieve : String → List Chunk)
    (query_text : String) :
    (∀ c rest, retrieve query_text = c :: rest →
      main_step chat config retrieve query_text =
        some ((generate_answer chat config query_text
            (retrieve query_text) 3).answer, [c.page_content]))
    ∧ (retrieve query_text = [] →
        main_step chat config retrieve query_text = none) := by
  constructor
  · intro c rest h
    simp [main_step, h]
  · intro h
    simp [main_step, h]

/-- C10, witness: a retriever returning zero chunks makes the step fail, and
one returning a chunk yields the singleton references list. -/
theorem C10_references_indexing_witness :
    main_step (fun _ _ => Except.error "down") (Except.ok ())
        (fun _ => []) "q" = none
    ∧ main_step (fun _ _ => Except.error "down") (Except.ok ())
        (fun _ => [(⟨"x", ⟨none, [], 0⟩⟩ : Chunk)]) "q" =
      some ((generate_answer (fun _ _ => Except.error "down") (Except.ok ())
          "q" [(⟨"x", ⟨none, [], 0⟩⟩ : Chunk)] 3).answer, ["x"]) :=
  ⟨(C10_references_indexing (fun _ _ => Except.error "down") (Except.ok ())
      (fun _ => []) "q").2 rfl,
   (C10_references_indexing (fun _ _ => Except.error "down") (Except.ok ())
      (fun _ => [(⟨"x", ⟨none, [], 0⟩⟩ : Chunk)]) "q").1 _ [] rfl⟩

theorem retry_go_calls_le (chat : Nat → Except String String)
    (m : Nat) (l : List Nat) :
    ∀ le, (retry_go chat m le l).calls ≤ l.length := by
  induction l with
  | nil => intro le; simp [retry_go]
  | cons a rest ih =>
    intro le
    rw [retry_go]
    cases h : gen_attempt chat a with
    | ok answer => simp
    | error e =>
      have := ih (some e)
      simp
      omega

theorem retry_go_nil (chat : Nat → Except String String) (m : Nat)
    (le : Option String) :
    retry_go chat m le [] =
      { answer := fail_message m le, calls := 0, sleeps := 0 } := rfl

theorem retry_go_cons_ok (chat : Nat → Except String String) (m : Nat)
    (le : Option String) (a : Nat) (rest : List Nat) (ans : String)
    (h : gen_attempt chat a = Except.ok ans) :
    retry_go chat m le (a :: rest) =
      { answer := ans, calls := 1, sleeps := 0 } := by
  rw [retry_go, h]

theorem retry_go_cons_error (chat : Nat → Except String String) (m : Nat)
    (le : Option String) (a : Nat) (rest : List Nat) (err : String)
    (h : gen_attempt chat a = Except.error err) :
    retry_go chat m le (a :: rest) =
      { answer := (retry_go chat m (some err) rest).answer
        calls := (retry_go chat m (some err) rest).calls + 1
        sleeps := (retry_go chat m (some err) rest).sleeps +
          (if rest = [] then 0 else 1) } := by
  rw [retry_go, h]

theorem retry_go_all_fail (chat : Nat → Except String String)
    (m : Nat) (e : Nat → String) :
    ∀ (l : List Nat), l ≠ [] →
      (∀ i ∈ l, gen_attempt chat i = Except.error (e i)) →
      ∀ le, retry_go chat m le l =
        { answer := fail_message m (some (e (l.getLastD 0))),
          calls := l.length, sleeps := l.length - 1 } := by
  intro l
  induction l with
  | nil => intro h; exact absurd rfl h
  | cons a rest ih =>
    intro _ hall le
    have ha : gen_attempt chat a = Except.error (e a) :=
      hall a (List.mem_cons_self _ _)
    cases rest with
    | nil =>
      rw [retry_go_cons_error chat m le a [] (e a) ha]
      simp [retry_go_nil]
    | cons b rest2 =>
      have hne : (b :: rest2) ≠ [] := by simp
      have hrec := ih hne
        (fun i hi => hall i (List.mem_cons_of_mem _ hi)) (some (e a))
      rw [retry_go_cons_error chat m le a (b :: rest2) (e a) ha, hrec]
      have hlast : (a :: b :: rest2).getLastD 0 = (b :: rest2).getLastD 0 := by
        simp [List.getLastD_cons]
      rw [hlast]
      simp

theorem range_getLastD (m : Nat) (h : 0 < m) :
    (List.range m).getLastD 0 = m - 1 := by
  cases m with
  | zero => omega
  | succ k => simp [List.range_succ, List.getLastD_concat]

theorem generate_answer_eq_retry (chat : Messages → Nat → Except String String)
    (query : String) (chunks : List Chunk) (max_retries : Nat)
    (hq : ¬ (query = "" ∨ py_strip query = ""))
    (hc : optimize_context chunks none ≠ []) :
    generate_answer chat (Except.ok ()) query chunks max_retries =
      retry_go
        (chat (create_messages query (optimize_context chunks none)
          (detect_language query)))
        max_retries none (List.range max_retries) := by
  have hl : chunks ≠ [] := by
    intro h
    subst h
    exact hc rfl
  simp [generate_answer, hq, hl, hc]

/-- C4: for every query with non-empty assembled context (and a loaded
configuration), `generate_answer` calls the generation collaborator at most
`max_retries` times; an empty (stripped) response from the collaborator is
treated as the failure Empty response from Ollama; if the first two attempts
fail and the third returns a non-empty answer with `max_retries = 3`, that
answer is returned with exactly 2 backoff sleeps; and if every attempt
fails, the final attempt error is surfaced in the returned failure text
after `max_retries - 1` sleeps. -/
theorem C4_retry_policy (chat : Messages → Nat → Except String String)
    (query : String) (chunks : List Chunk) (max_retries : Nat)
    (e : Nat → String) (a : String)
    (hq : ¬ (query = "" ∨ py_strip query = ""))
    (hc : optimize_context chunks none ≠ []) :
    (generate_answer chat (Except.ok ()) query chunks max_retries).calls ≤
      max_retries
    ∧ (∀ i s,
        chat (create_messages query (optimize_context chunks none)
          (detect_language query)) i = Except.ok s →
        py_strip s = "" →
        gen_attempt (chat (create_messages query
          (optimize_context chunks none) (detect_language query))) i =
          Except.error "Empty response from Ollama")
    ∧ (max_retries = 3 →
        gen_attempt (chat (create_messages query
          (optimize_context chunks none) (detect_language query))) 0 =
          Except.error (e 0) →
        gen_attempt (chat (create_messages query
          (optimize_context chunks none) (detect_language query))) 1 =
          Except.error (e 1) →
        gen_attempt (chat (create_messages query
          (optimize_context chunks none) (detect_language query))) 2 =
          Except.ok a →
        generate_answer chat (Except.ok ()) query chunks max_retries =
          { answer := a, calls := 3, sleeps := 2 })
    ∧ (0 < max_retries →
        (∀ i, i < max_retries →
          gen_attempt (chat (create_messages query
            (optimize_context chunks none) (detect_language query))) i =
            Except.error (e i)) →
        generate_answer chat (Except.ok ()) query chunks max_retries =
          { answer := fail_message max_retries (some (e (max_retries - 1))),
            calls := max_retries, sleeps := max_retries - 1 }) := by
  have hmain := generate_answer_eq_retry chat query chunks max_retries hq hc
  refine ⟨?_, ?_, ?_, ?_⟩
  · rw [hmain]
    have h := retry_go_calls_le
      (chat (create_messages query (optimize_context chunks none)
        (detect_language query)))
      max_retries (List.range max_retries) none
    simpa [List.length_range] using h
  · intro i s h1 h2
    simp [gen_attempt, h1, h2]
  · intro hm h0 h1 h2
    subst hm
    rw [hmain]
    have hr : List.range 3 = [0, 1, 2] := rfl
    rw [hr]
    rw [retry_go_cons_error _ 3 none 0 [1, 2] (e 0) h0]
    rw [retry_go_cons_error _ 3 (some (e 0)) 1 [2] (e 1) h1]
    rw [retry_go_cons_ok _ 3 (some (e 1)) 2 [] a h2]
    simp
  · intro hpos hall
    rw [hmain]
    rw [retry_go_all_fail _ max_retries e (List.range max_retries)
      (by simp [List.range_eq_nil]; omega)
      (fun i hi => hall i (List.mem_range.mp hi)) none]
    rw [range_getLastD max_retries hpos]
    simp [List.length_range]

/-- C4, witness: a collaborator failing on attempt 0, returning a blank
response on attempt 1 (counted as a failure) and answering on attempt 2
yields that answer after 2 sleeps; a collaborator failing on all 3 attempts
yields the failure text carrying the final attempt error. -/
theorem C4_retry_policy_witness :
    (generate_answer
        (fun _ i => if i = 0 then Except.error "boom0"
          else if i = 1 then Except.ok "   " else Except.ok "Paris")
        (Except.ok ()) "hi" [(⟨"France", ⟨none, [], 0⟩⟩ : Chunk)] 3 =
      { answer := "Paris", calls := 3, sleeps := 2 })
    ∧ (generate_answer (fun _ i => Except.error ("e" ++ toString i))
        (Except.ok ()) "hi" [(⟨"France", ⟨none, [], 0⟩⟩ : Chunk)] 3 =
      { answer := fail_message 3 (some ("e" ++ toString 2)),
        calls := 3, sleeps := 2 }) := by
  constructor
  · exact (C4_retry_policy
      (fun _ i => if i = 0 then Except.error "boom0"
        else if i = 1 then Except.ok "   " else Except.ok "Paris")
      "hi" [(⟨"France", ⟨none, [], 0⟩⟩ : Chunk)] 3
      (fun i => if i = 0 then "boom0" else "Empty response from Ollama")
      "Paris" (by decide) (by decide)).2.2.1 rfl rfl rfl rfl
  · exact (C4_retry_policy (fun _ i => Except.error ("e" ++ toString i))
      "hi" [(⟨"France", ⟨none, [], 0⟩⟩ : Chunk)] 3
      (fun i => "e" ++ toString i) "x" (by decide) (by decide)).2.2.2
      (by decide) (fun i _ => rfl)
